import Mathlib

/-
Verification of the JewelryProcessingSystem repository.

The development shallowly embeds the four Python source files:
  scripts/JewelryDatasetManager.py (classes JewelryDatasetManager and
  JewelryWebScraper), webhook_handler/webhook_handler.py, and
  jewelry_processor.py.

External effects (PIL decoding, filesystem writes, S3 uploads, HTTP
responses, random draws) are modelled as explicit environment inputs and
explicit operation traces, so every function below is an executable Lean
definition mirroring the control flow of its Python counterpart.
-/

set_option maxHeartbeats 1000000

namespace Jewelry

/-! ## Shared JSON model (python json module, as used by the sources) -/

/-- Hexadecimal digit character, lowercase, as produced by python string
formatting of hash digests and unicode escapes. -/
def hexDigit (n : Nat) : Char :=
  if n < 10 then Char.ofNat (48 + n) else Char.ofNat (87 + n)

/-- Four hex digits, as in a JSON unicode escape. -/
def hex4 (n : Nat) : String :=
  String.mk [hexDigit (n / 4096 % 16), hexDigit (n / 256 % 16),
             hexDigit (n / 16 % 16), hexDigit (n % 16)]

/-- Escaping of one character inside a JSON string literal, following
json.dumps with its default ensure_ascii=True. -/
def escapeChar (c : Char) : String :=
  if c = '"' then "\\\""
  else if c = '\\' then "\\\\"
  else if c = Char.ofNat 10 then "\\n"
  else if c = Char.ofNat 9 then "\\t"
  else if c = Char.ofNat 13 then "\\r"
  else if c = Char.ofNat 8 then "\\b"
  else if c = Char.ofNat 12 then "\\f"
  else if c.toNat < 32 then "\\u" ++ hex4 c.toNat
  else if c.toNat < 127 then String.singleton c
  else if c.toNat < 65536 then "\\u" ++ hex4 c.toNat
  else
    "\\u" ++ hex4 (55296 + (c.toNat - 65536) / 1024)
      ++ "\\u" ++ hex4 (56320 + (c.toNat - 65536) % 1024)

/-- Escaping of a whole string body, following json.dumps. -/
def escapeString (s : String) : String :=
  String.join (s.data.map escapeChar)

/-- A JSON string literal: quotes around the escaped body. -/
def jstr (s : String) : String :=
  "\"" ++ escapeString s ++ "\""

/-- JSON values, the subset python json handles (objects keep insertion
order, as python dicts do). -/
inductive Json where
  | null : Json
  | bool (b : Bool) : Json
  | num (n : Int) : Json
  | str (s : String) : Json
  | arr (xs : List Json) : Json
  | obj (kvs : List (String × Json)) : Json

/-- Stable insertion of a rendered key/value pair into a key-sorted list,
keeping equal keys in their original relative order (python sorted is
stable; dict keys are unique anyway). -/
def insertByKey (kv : String × String) :
    List (String × String) → List (String × String)
  | [] => [kv]
  | x :: xs => if kv.1 ≤ x.1 then kv :: x :: xs else x :: insertByKey kv xs

/-- Stable sort by key of rendered pairs, modelling sorted(d.items()). -/
def sortByKey : List (String × String) → List (String × String)
  | [] => []
  | x :: xs => insertByKey x (sortByKey xs)

mutual

/-- Model of json.dumps(v, separators=(",", ":"), sort_keys=True), the
canonical compact serialization used by the webhook handler. -/
def dumps : Json → String
  | Json.null => "null"
  | Json.bool true => "true"
  | Json.bool false => "false"
  | Json.num n => toString n
  | Json.str s => jstr s
  | Json.arr xs => "[" ++ String.intercalate "," (dumpsList xs) ++ "]"
  | Json.obj kvs =>
      "\x7b" ++
        String.intercalate ","
          ((sortByKey (dumpsPairs kvs)).map fun kv => jstr kv.1 ++ ":" ++ kv.2)
        ++ "\x7d"

/-- Serialization of each array element. -/
def dumpsList : List Json → List String
  | [] => []
  | x :: xs => dumps x :: dumpsList xs

/-- Serialization of each object value, keys kept for later sorting. -/
def dumpsPairs : List (String × Json) → List (String × String)
  | [] => []
  | (k, v) :: xs => (k, dumps v) :: dumpsPairs xs

end

/-- Dictionary lookup, as python subscripting on a dict: any miss (wrong
shape or absent key) is a raised lookup error, modelled as none. -/
def Json.getKey : Json → String → Option Json
  | Json.obj kvs, k => (kvs.find? fun kv => kv.1 == k).map (·.2)
  | _, _ => none

/-- Index lookup, as python subscripting on a list. -/
def Json.getIdx : Json → Nat → Option Json
  | Json.arr xs, i => xs.get? i
  | _, _ => none

end Jewelry

namespace Jewelry

/-! ## JewelryDatasetManager (scripts/JewelryDatasetManager.py, class 1) -/

namespace Manager

/-- Configuration dict of JewelryDatasetManager.__init__. -/
structure ManagerConfig where
  input_dir : String
  output_dir : String
  aws_bucket : String
  min_image_size : Nat
  max_images_per_category : Nat
  user_agents : List String

/-- Default configuration of JewelryDatasetManager.__init__. -/
def defaultManagerConfig : ManagerConfig :=
  { input_dir := "raw_data"
  , output_dir := "processed_datasets"
  , aws_bucket := "jewelry-images-input-bucket"
  , min_image_size := 512
  , max_images_per_category := 1000
  , user_agents :=
      [ "Mozilla/5.0 (Windows NT 10.0; Win64; x64) AppleWebKit/537.36"
      , "Mozilla/5.0 (Macintosh; Intel Mac OS X 10_15_7) AppleWebKit/537.36" ] }

/-- An in-memory image as PIL Image.open yields it: pixel size and color
mode. -/
structure PILImage where
  width : Nat
  height : Nat
  mode : String
deriving DecidableEq

/-- Python min(img.size) where img.size is the tuple (width, height). -/
def minSize (img : PILImage) : Nat := min img.width img.height

/-- Image.convert("RGB") when the mode differs; size is untouched. -/
def convertRGB (img : PILImage) : PILImage :=
  if img.mode = "RGB" then img else { img with mode := "RGB" }

/-- The pieces of a pathlib.Path the manager reads: stem, parent name
(the category folder) and the full textual path. -/
structure ImagePath where
  stem : String
  parentName : String
  full : String
deriving DecidableEq

/-- Environment of one process_single_image call: the outcome of PIL
decoding (none = decode raises), the value random.randint(1000, 9999)
returned, and whether the s3 upload_file call succeeds. -/
structure ImgEnv where
  decoded : Option PILImage
  randDraw : Nat
  uploadOk : Bool
deriving DecidableEq

/-- The metadata dict returned by process_single_image on acceptance. -/
structure ImageRecord where
  original_path : String
  processed_path : String
  category : String
  dimensions : Nat × Nat
  s3_key : String
deriving DecidableEq

/-- Filesystem / network operations the manager performs, as a trace. -/
inductive Op where
  | mkdir (path : String)
  | saveJpeg (path : String) (quality : Nat)
  | s3Upload (file : String) (bucket : String) (key : String)
  | logError (msg : String)
  | removeFile (path : String)
  | writeFile (path : String) (content : String)
deriving DecidableEq

/-- JewelryDatasetManager.upload_to_s3: wraps the s3 call in try/except,
logging the failure; it never raises, and it never deletes anything. -/
def upload_to_s3 (cfg : ManagerConfig) (uploadOk : Bool)
    (file_path : String) (category : String) (filename : String) : List Op :=
  if uploadOk then
    [Op.s3Upload file_path cfg.aws_bucket (category ++ "/" ++ filename)]
  else
    [Op.logError ("S3 upload error for " ++ file_path)]

/-- JewelryDatasetManager.process_single_image. Returns the metadata dict
(or none) together with the trace of operations performed. A decode error
is caught by the outer except and logged; an undersized image returns
none before any write; an accepted image is converted, saved as JPEG
quality 95 under stem_draw.jpg, uploaded, and reported. -/
def process_single_image (cfg : ManagerConfig) (env : ImgEnv)
    (image_path : ImagePath) (output_dir : String) :
    Option ImageRecord × List Op :=
  match env.decoded with
  | none =>
      (none, [Op.logError ("Error processing " ++ image_path.full)])
  | some img0 =>
      if minSize img0 < cfg.min_image_size then
        (none, [])
      else
        let img := convertRGB img0
        let output_name := image_path.stem ++ "_" ++ toString env.randDraw ++ ".jpg"
        let output_path := output_dir ++ "/" ++ output_name
        ( some
            { original_path := image_path.full
            , processed_path := output_path
            , category := image_path.parentName
            , dimensions := (img.width, img.height)
            , s3_key := image_path.parentName ++ "/" ++ output_name }
        , Op.saveJpeg output_path 95
            :: upload_to_s3 cfg env.uploadOk output_path image_path.parentName output_name )

/-- Indent-2 JSON block for one record, exactly as json.dump(metadata, f,
indent=2) renders one element of the metadata list (insertion-ordered
keys, tuple rendered as a JSON array). -/
def imageRecordBlock (r : ImageRecord) : String :=
  "  \x7b\n"
    ++ "    " ++ jstr "original_path" ++ ": " ++ jstr r.original_path ++ ",\n"
    ++ "    " ++ jstr "processed_path" ++ ": " ++ jstr r.processed_path ++ ",\n"
    ++ "    " ++ jstr "category" ++ ": " ++ jstr r.category ++ ",\n"
    ++ "    " ++ jstr "dimensions" ++ ": [\n"
    ++ "      " ++ toString r.dimensions.1 ++ ",\n"
    ++ "      " ++ toString r.dimensions.2 ++ "\n    ],\n"
    ++ "    " ++ jstr "s3_key" ++ ": " ++ jstr r.s3_key ++ "\n  \x7d"

/-- Model of json.dump(metadata, f, indent=2) on the list of records; the
empty list renders as the two-character empty array. -/
def dumpRecordsIndent2 : List ImageRecord → String
  | [] => "[]"
  | r :: rs =>
      "[\n" ++ String.intercalate ",\n" ((r :: rs).map imageRecordBlock) ++ "\n]"

/-- Path of the per-category metadata artifact used by save_metadata. -/
def metadataFilePath (cfg : ManagerConfig) (category : String) : String :=
  cfg.output_dir ++ "/" ++ category ++ "_metadata.json"

/-- JewelryDatasetManager.save_metadata: one JSON artifact per category,
name derived from the category identifier. -/
def save_metadata (cfg : ManagerConfig) (category : String)
    (metadata : List ImageRecord) : Op :=
  Op.writeFile (metadataFilePath cfg category) (dumpRecordsIndent2 metadata)

/-- One image file of a category folder together with its processing
environment. -/
structure LocalImage where
  path : ImagePath
  env : ImgEnv
deriving DecidableEq

/-- A category subdirectory of the base directory (only directories are
iterated) with the image files its glob finds. -/
structure CategoryDir where
  name : String
  images : List LocalImage
deriving DecidableEq

/-- The metadata list collected for one category: results of the futures,
keeping only truthy (non-none) ones, in submission order. -/
def category_metadata (cfg : ManagerConfig) (d : CategoryDir) : List ImageRecord :=
  d.images.filterMap fun im =>
    (process_single_image cfg im.env im.path (cfg.output_dir ++ "/" ++ d.name)).1

/-- The operations of one iteration of the category loop: mkdir of the
category output dir, the per-image traces, then save_metadata. -/
def process_category (cfg : ManagerConfig) (d : CategoryDir) : List Op :=
  Op.mkdir (cfg.output_dir ++ "/" ++ d.name)
    :: (d.images.map fun im =>
          (process_single_image cfg im.env im.path (cfg.output_dir ++ "/" ++ d.name)).2).flatten
    ++ [save_metadata cfg d.name (category_metadata cfg d)]

/-- The category loop of process_local_folders. -/
def process_local_folders_loop (cfg : ManagerConfig) : List CategoryDir → List Op
  | [] => []
  | d :: rest => process_category cfg d ++ process_local_folders_loop cfg rest

/-- JewelryDatasetManager.process_local_folders over the category
directories found under the base directory. -/
def process_local_folders (cfg : ManagerConfig) (dirs : List CategoryDir) : List Op :=
  Op.mkdir cfg.output_dir :: process_local_folders_loop cfg dirs

end Manager

end Jewelry

namespace Jewelry

/-! ## JewelryWebScraper (scripts/JewelryDatasetManager.py, class 2) -/

namespace Scraper

/-- The selector map of one configured site. -/
structure Selectors where
  image : String
  title : String
  price : String
deriving DecidableEq

/-- One configured target site: base url plus selectors. -/
structure ScrapeTarget where
  url : String
  selectors : Selectors
deriving DecidableEq

/-- Configuration dict of JewelryWebScraper.__init__. The scraper also
reads self.config["user_agents"], a key its own defaults never set: the
missing key is modelled as the empty list (the lookup, like
random.choice on an empty pool, raises and the product task fails). -/
structure ScraperConfig where
  output_dir : String
  delay_range : Nat × Nat
  max_retries : Nat
  concurrent_requests : Nat
  target_sites : List ScrapeTarget
  user_agents : List String
deriving DecidableEq

/-- Default configuration of JewelryWebScraper.__init__. -/
def defaultScraperConfig : ScraperConfig :=
  { output_dir := "scraped_data"
  , delay_range := (1, 3)
  , max_retries := 3
  , concurrent_requests := 5
  , target_sites :=
      [ { url := "https://example-jewelry-site.com"
        , selectors :=
            { image := "div.product-image img"
            , title := "h1.product-title"
            , price := "span.price" } } ]
  , user_agents := [] }

/-- The scraped record returned by a fully successful scrape_product. -/
structure ProductRecord where
  url : String
  title : String
  price : String
  image_filename : String
deriving DecidableEq

/-- What the network and the page offer to one scrape_product task:
the HTTP status of the product page, the value each selector extraction
yields (none = select_one found nothing, or the image tag had no src
attribute, so the subscript or attribute access raises), and the image
request outcome (none = the GET itself raised, otherwise status and
body bytes). -/
structure PageEnv where
  status : Nat
  imageSrc : Option String
  titleText : Option String
  priceText : Option String
  imageFetch : Option (Nat × List Nat)
deriving DecidableEq

/-- JewelryWebScraper.download_image: try the GET, return the body on
status 200, fall through to none on any other status, return none on a
raised error. -/
def download_image (env : PageEnv) : Option (List Nat) :=
  match env.imageFetch with
  | none => none
  | some (st, body) => if st = 200 then some body else none

/-- Python str.split("/") on the character list: an explicit separator
never collapses, so the empty string splits to one empty group. -/
def splitOnSlash : List Char → List (List Char)
  | [] => [[]]
  | c :: cs =>
      let rest := splitOnSlash cs
      if c = '/' then [] :: rest
      else
        match rest with
        | [] => [[c]]
        | g :: gs => (c :: g) :: gs

/-- Python url.split("/")[-1]. -/
def lastSegment (url : String) : String :=
  String.mk ((splitOnSlash url.data).getLastD [])

/-- JewelryWebScraper.scrape_product, after the semaphore admits the task
and the randomized delay elapses. random.choice on the user agent pool
raises when the pool is empty (the default config defines none), which
the except clause turns into none. On status 200 the three selector
extractions run (a failed one raises, caught as none), then the image is
downloaded; an empty body is falsy, so only a non-empty body produces a
record whose image filename derives from the last url path segment. -/
def scrape_product (cfg : ScraperConfig) (url : String) (sel : Selectors)
    (env : PageEnv) : Option ProductRecord :=
  if cfg.user_agents.isEmpty then none
  else if env.status = 200 then
    match env.imageSrc, env.titleText, env.priceText with
    | some _, some title, some price =>
        match download_image env with
        | some body =>
            if body.isEmpty then none
            else some
              { url := url
              , title := title
              , price := price
              , image_filename := lastSegment url ++ ".jpg" }
        | none => none
    | _, _, _ => none
  else none

/-- Environment of one scrape_site call: the outcome of get_product_urls
(error = an exception raised during discovery) and, per discovered url,
the page environment of its product task. -/
structure SiteEnv where
  discovery : Except String (List String)
  pages : String → PageEnv

/-- Filesystem operations of the scraper. The CSV artifact is written by
pandas DataFrame.to_csv, an external collaborator, so the op carries the
rows handed to it rather than a rendered text. -/
inductive SOp where
  | mkdir (path : String)
  | writeFile (path : String) (content : String)
  | writeCsv (path : String) (rows : List ProductRecord)
  | logError (msg : String)
deriving DecidableEq

/-- Indent-2 JSON block for one product record, as json.dump(results, f,
indent=2) renders one element. -/
def productRecordBlock (r : ProductRecord) : String :=
  "  \x7b\n"
    ++ "    " ++ jstr "url" ++ ": " ++ jstr r.url ++ ",\n"
    ++ "    " ++ jstr "title" ++ ": " ++ jstr r.title ++ ",\n"
    ++ "    " ++ jstr "price" ++ ": " ++ jstr r.price ++ ",\n"
    ++ "    " ++ jstr "image_filename" ++ ": " ++ jstr r.image_filename ++ "\n  \x7d"

/-- Model of json.dump(results, f, indent=2) on the product list. -/
def dumpProductsIndent2 : List ProductRecord → String
  | [] => "[]"
  | r :: rs =>
      "[\n" ++ String.intercalate ",\n" ((r :: rs).map productRecordBlock) ++ "\n]"

/-- JewelryWebScraper.save_scrape_results. Both artifact names are fixed
literals: the site url argument plays no part in them. -/
def save_scrape_results (cfg : ScraperConfig) (site_url : String)
    (results : List ProductRecord) : List SOp :=
  [ SOp.mkdir cfg.output_dir
  , SOp.writeFile (cfg.output_dir ++ "/scrape_results.json")
      (dumpProductsIndent2 results)
  , SOp.writeCsv (cfg.output_dir ++ "/scrape_results.csv") results ]

/-- The per-task outcomes asyncio.gather collects for one site: one entry
per discovered url, in submission order. -/
def site_task_results (cfg : ScraperConfig) (site : ScrapeTarget)
    (urls : List String) (pages : String → PageEnv) : List (Option ProductRecord) :=
  urls.map fun u => scrape_product cfg u site.selectors (pages u)

/-- The valid_results filter of scrape_site: keep the dict results. -/
def site_valid_results (cfg : ScraperConfig) (site : ScrapeTarget)
    (urls : List String) (pages : String → PageEnv) : List ProductRecord :=
  (site_task_results cfg site urls pages).filterMap id

/-- JewelryWebScraper.scrape_site: discovery, bounded concurrent product
tasks, filter, persist; an exception while discovering urls is caught by
the enclosing try and only logged, so the site produces no artifact. -/
def scrape_site (cfg : ScraperConfig) (site : ScrapeTarget) (env : SiteEnv) :
    List SOp :=
  match env.discovery with
  | Except.error e =>
      [SOp.logError ("Error scraping site " ++ site.url ++ ": " ++ e)]
  | Except.ok urls =>
      save_scrape_results cfg site.url (site_valid_results cfg site urls env.pages)

/-- JewelryWebScraper.start_scraping: the sequential site loop; each
iteration awaits scrape_site, which catches its own failures. -/
def start_scraping (cfg : ScraperConfig) :
    List (ScrapeTarget × SiteEnv) → List SOp
  | [] => []
  | (site, env) :: rest => scrape_site cfg site env ++ start_scraping cfg rest

end Scraper

end Jewelry

namespace Jewelry

/-! ## Webhook handler (webhook_handler/webhook_handler.py) -/

namespace Webhook

/-- The HMAC-SHA256 hex digest bound to the shared secret is an external
collaborator (python hmac/hashlib); a handler run is parameterized by the
function message to hex digest that hmac.new + hexdigest realize. -/
def canonicalPayload (data : Json) : String := dumps data

/-- verify_signature: recompute the digest over the canonical compact
sorted-key serialization of the payload and compare with
hmac.compare_digest (functionally, string equality). -/
def verify_signature (hmacHex : String → String) (data : Json)
    (signature : String) : Bool :=
  hmacHex (canonicalPayload data) == signature

/-- Python truthiness of the optional header value: absent and empty are
both falsy. -/
def headerTruthy : Option String → Bool
  | none => false
  | some s => !(s == "")

/-- handle_webhook: reject with 400 when the header is falsy or the
signatures differ, otherwise acknowledge with 200. -/
def handle_webhook (hmacHex : String → String) (signatureHeader : Option String)
    (data : Json) : Nat :=
  if !(headerTruthy signatureHeader)
      || !(verify_signature hmacHex data (signatureHeader.getD "")) then
    400
  else
    200

end Webhook

/-! ## S3 event handler (jewelry_processor.py) -/

namespace Processor

/-- The response body of a Lambda return value. -/
structure LambdaResponse where
  statusCode : Nat
  body : String
deriving DecidableEq

/-- The dict cloudinary.uploader.upload returns, the fields the handler
reads. -/
structure CloudinaryResult where
  secure_url : String
  format : String
  byteSize : Nat
  width : Nat
  height : Nat
deriving DecidableEq

/-- Outcomes of the three downstream calls inside the try block: the S3
download, the Cloudinary upload, the DynamoDB put_item. -/
structure ProcessorEnv where
  download : Except String Unit
  upload : Except String CloudinaryResult
  put_item : Except String Unit

/-- The two subscript chains run before the try block:
event["Records"][0]["s3"]["bucket"]["name"] and
event["Records"][0]["s3"]["object"]["key"]; any miss raises a lookup
error out of the handler. -/
def extractBucketKey (event : Json) : Option (Json × Json) := do
  let records ← event.getKey "Records"
  let r0 ← records.getIdx 0
  let s3part ← r0.getKey "s3"
  let bucket ← (← s3part.getKey "bucket").getKey "name"
  let key ← (← s3part.getKey "object").getKey "key"
  return (bucket, key)

/-- The body of the try block: download, upload, put_item in order,
stopping at the first raised error. -/
def runPipeline (env : ProcessorEnv) : Except String CloudinaryResult := do
  let _ ← env.download
  let res ← env.upload
  let _ ← env.put_item
  return res

/-- json.dumps of the success body (default separators, insertion
order). -/
def successBody (url : String) : String :=
  "\x7b" ++ jstr "message" ++ ": " ++ jstr "Image processed successfully"
    ++ ", " ++ jstr "imageUrl" ++ ": " ++ jstr url ++ "\x7d"

/-- json.dumps of the failure body. -/
def errorBody (e : String) : String :=
  "\x7b" ++ jstr "error" ++ ": " ++ jstr e ++ "\x7d"

/-- The Lambda handler: extraction happens before the try block, so a
malformed event raises to the caller; once inside, every failure becomes
a 500 response and success a 200 response. -/
def handler (env : ProcessorEnv) (event : Json) : Except String LambdaResponse :=
  match extractBucketKey event with
  | none => Except.error "lookup failed on Records[0].s3 structure"
  | some _ =>
      match runPipeline env with
      | Except.ok res => Except.ok ⟨200, successBody res.secure_url⟩
      | Except.error e => Except.ok ⟨500, errorBody e⟩

end Processor

/-! ## Semaphore discipline of scrape_site (asyncio.Semaphore) -/

namespace Scraper

/-- The phase of one product task of a site run: created but not yet past
the semaphore, admitted (delaying, fetching, parsing or downloading,
counted by the stage number), or finished (the async-with block exited,
releasing the semaphore). -/
inductive TaskPhase where
  | waiting : TaskPhase
  | inflight (stage : Nat) : TaskPhase
  | done : TaskPhase
deriving DecidableEq

/-- Whether a task is past the semaphore acquisition and not yet done. -/
def isInflight : TaskPhase → Bool
  | TaskPhase.inflight _ => true
  | _ => false

/-- A state of one site run: the internal counter of the
asyncio.Semaphore created by scrape_site, plus the phase of every
product task. -/
structure SemState where
  value : Nat
  tasks : List TaskPhase

/-- The number of tasks simultaneously past the semaphore. -/
def inflightCount (s : SemState) : Nat := s.tasks.countP isInflight

/-- One scheduler step of the cooperative event loop. Acquire only fires
when the counter is positive (asyncio.Semaphore.acquire suspends
otherwise) and decrements it; exiting the async-with block increments
it; a task may advance through its stages while admitted. -/
inductive SemStep : SemState → SemState → Prop
  | acquire (v : Nat) (l r : List TaskPhase) :
      SemStep ⟨v + 1, l ++ TaskPhase.waiting :: r⟩
              ⟨v, l ++ TaskPhase.inflight 0 :: r⟩
  | progress (v n : Nat) (l r : List TaskPhase) :
      SemStep ⟨v, l ++ TaskPhase.inflight n :: r⟩
              ⟨v, l ++ TaskPhase.inflight (n + 1) :: r⟩
  | release (v n : Nat) (l r : List TaskPhase) :
      SemStep ⟨v, l ++ TaskPhase.inflight n :: r⟩
              ⟨v + 1, l ++ TaskPhase.done :: r⟩

/-- The initial state of one scrape_site call: a fresh semaphore at the
configured cap (the semaphore is constructed inside scrape_site, so each
site run starts from this state again) and one waiting task per
discovered url. -/
def scrapeSiteInit (cfg : ScraperConfig) (urls : List String) : SemState :=
  ⟨cfg.concurrent_requests, List.replicate urls.length TaskPhase.waiting⟩

/-- Reachability of a state of one site run under the event loop. -/
def ReachableFrom (init s : SemState) : Prop :=
  Relation.ReflTransGen SemStep init s

end Scraper

end Jewelry

namespace Jewelry

/-! ## Helper lemmas -/

/-- Filtering the successes out of a list of optional outcomes keeps
exactly length minus the number of failures. -/
theorem length_filterMap_id {α : Type} (l : List (Option α)) :
    (l.filterMap id).length = l.length - l.countP (fun o => o.isNone) := by
  induction l with
  | nil => rfl
  | cons a t ih =>
      have hle : t.countP (fun o : Option α => o.isNone) ≤ t.length :=
        List.countP_le_length _
      cases a with
      | none => simp [List.countP_cons, ih]
      | some b => simp [List.countP_cons, ih]; omega

namespace Manager

/-- Conversion to RGB keeps the width. -/
theorem convertRGB_width (img : PILImage) : (convertRGB img).width = img.width := by
  unfold convertRGB; split <;> rfl

/-- Conversion to RGB keeps the height. -/
theorem convertRGB_height (img : PILImage) : (convertRGB img).height = img.height := by
  unfold convertRGB; split <;> rfl

/-- Characterization of the returned metadata of process_single_image on
a decodable image. -/
theorem process_single_image_fst (cfg : ManagerConfig) (env : ImgEnv)
    (p : ImagePath) (out : String) (img : PILImage)
    (hdec : env.decoded = some img) :
    (process_single_image cfg env p out).1
      = if minSize img < cfg.min_image_size then none
        else some
          { original_path := p.full
          , processed_path := out ++ "/" ++ (p.stem ++ "_" ++ toString env.randDraw ++ ".jpg")
          , category := p.parentName
          , dimensions := (img.width, img.height)
          , s3_key := p.parentName ++ "/" ++ (p.stem ++ "_" ++ toString env.randDraw ++ ".jpg") } := by
  simp only [process_single_image, hdec]
  split
  · rfl
  · simp [convertRGB_width, convertRGB_height]

end Manager

end Jewelry

namespace Jewelry

namespace Manager

/-- Claim C1: for every decodable input image, process_single_image
returns a metadata record iff both dimensions reach the configured
minimum (default 512); every returned record carries dimensions at or
above the minimum, and every rejected decodable image has a dimension
below it. -/
theorem process_single_image_accepts_iff_min_size (cfg : ManagerConfig)
    (env : ImgEnv) (p : ImagePath) (out : String) (img : PILImage)
    (hdec : env.decoded = some img) :
    defaultManagerConfig.min_image_size = 512 ∧
    (((process_single_image cfg env p out).1).isSome ↔
      (cfg.min_image_size ≤ img.width ∧ cfg.min_image_size ≤ img.height)) ∧
    (∀ rec : ImageRecord, (process_single_image cfg env p out).1 = some rec →
      cfg.min_image_size ≤ rec.dimensions.1 ∧ cfg.min_image_size ≤ rec.dimensions.2) ∧
    ((process_single_image cfg env p out).1 = none →
      img.width < cfg.min_image_size ∨ img.height < cfg.min_image_size) := by
  have hch := process_single_image_fst cfg env p out img hdec
  refine ⟨rfl, ?_, ?_, ?_⟩
  · rw [hch]
    by_cases hlt : minSize img < cfg.min_image_size
    · rw [if_pos hlt]
      have hd := min_lt_iff.mp hlt
      simp only [Option.isSome_none, Bool.false_eq_true, false_iff]
      omega
    · rw [if_neg hlt]
      have hd := le_min_iff.mp (Nat.le_of_not_lt hlt)
      simp only [Option.isSome_some, true_iff]
      exact hd
  · intro rec hrec
    rw [hch] at hrec
    by_cases hlt : minSize img < cfg.min_image_size
    · rw [if_pos hlt] at hrec; cases hrec
    · rw [if_neg hlt] at hrec
      have hd := le_min_iff.mp (Nat.le_of_not_lt hlt)
      cases hrec
      exact hd
  · intro hnone
    rw [hch] at hnone
    by_cases hlt : minSize img < cfg.min_image_size
    · have hd := min_lt_iff.mp hlt
      omega
    · rw [if_neg hlt] at hnone; cases hnone

/-- Concrete run of the C1 theorem: a 600 by 700 image under the default
configuration. -/
theorem process_single_image_accepts_iff_min_size_witness :
    defaultManagerConfig.min_image_size = 512 ∧
    (((process_single_image defaultManagerConfig ⟨some ⟨600, 700, "L"⟩, 1234, true⟩
        ⟨"ring", "rings", "raw/rings/ring.jpg"⟩ "processed_datasets/rings").1).isSome ↔
      (defaultManagerConfig.min_image_size ≤ 600 ∧ defaultManagerConfig.min_image_size ≤ 700)) ∧
    (∀ rec : ImageRecord,
      (process_single_image defaultManagerConfig ⟨some ⟨600, 700, "L"⟩, 1234, true⟩
        ⟨"ring", "rings", "raw/rings/ring.jpg"⟩ "processed_datasets/rings").1 = some rec →
      defaultManagerConfig.min_image_size ≤ rec.dimensions.1 ∧
      defaultManagerConfig.min_image_size ≤ rec.dimensions.2) ∧
    ((process_single_image defaultManagerConfig ⟨some ⟨600, 700, "L"⟩, 1234, true⟩
        ⟨"ring", "rings", "raw/rings/ring.jpg"⟩ "processed_datasets/rings").1 = none →
      600 < defaultManagerConfig.min_image_size ∨ 700 < defaultManagerConfig.min_image_size) :=
  process_single_image_accepts_iff_min_size defaultManagerConfig
    ⟨some ⟨600, 700, "L"⟩, 1234, true⟩ ⟨"ring", "rings", "raw/rings/ring.jpg"⟩
    "processed_datasets/rings" ⟨600, 700, "L"⟩ rfl

end Manager

end Jewelry

namespace Jewelry

namespace Manager

/-- Claim C8: the normalized output filename of an accepted image is the
original stem, an underscore, the randint draw from the inclusive range
1000 to 9999, and the fixed .jpg extension; the name depends on nothing
but the stem and the draw (no collision retry), so two same-stemmed
inputs processed with an equal draw get the identical output filename. -/
theorem process_single_image_filename_scheme (cfg : ManagerConfig)
    (env : ImgEnv) (p q : ImagePath) (out : String) (img : PILImage)
    (hdec : env.decoded = some img)
    (hacc : cfg.min_image_size ≤ minSize img)
    (hlo : 1000 ≤ env.randDraw) (hhi : env.randDraw ≤ 9999) :
    (∃ r : Nat, 1000 ≤ r ∧ r ≤ 9999 ∧
      ((process_single_image cfg env p out).1).map (fun rec => rec.processed_path)
        = some (out ++ "/" ++ (p.stem ++ "_" ++ toString r ++ ".jpg"))) ∧
    (p.stem = q.stem →
      ((process_single_image cfg env p out).1).map (fun rec => rec.processed_path)
        = ((process_single_image cfg env q out).1).map (fun rec => rec.processed_path)) := by
  have hnlt : ¬ minSize img < cfg.min_image_size := Nat.not_lt.mpr hacc
  have hp := process_single_image_fst cfg env p out img hdec
  have hq := process_single_image_fst cfg env q out img hdec
  rw [hp, if_neg hnlt]
  constructor
  · exact ⟨env.randDraw, hlo, hhi, rfl⟩
  · intro hstem
    rw [hq, if_neg hnlt]
    simp [hstem]

/-- Concrete run of the C8 theorem: two files named ring.jpg in
different subfolders of the same category, drawing 4242 both times,
collide on out/ring_4242.jpg. -/
theorem process_single_image_filename_scheme_witness :
    (∃ r : Nat, 1000 ≤ r ∧ r ≤ 9999 ∧
      ((process_single_image defaultManagerConfig ⟨some ⟨800, 800, "RGB"⟩, 4242, true⟩
          ⟨"ring", "rings", "raw/rings/a/ring.jpg"⟩ "out").1).map (fun rec => rec.processed_path)
        = some ("out" ++ "/" ++ ("ring" ++ "_" ++ toString r ++ ".jpg"))) ∧
    ("ring" = "ring" →
      ((process_single_image defaultManagerConfig ⟨some ⟨800, 800, "RGB"⟩, 4242, true⟩
          ⟨"ring", "rings", "raw/rings/a/ring.jpg"⟩ "out").1).map (fun rec => rec.processed_path)
        = ((process_single_image defaultManagerConfig ⟨some ⟨800, 800, "RGB"⟩, 4242, true⟩
          ⟨"ring", "rings", "raw/rings/b/ring.jpg"⟩ "out").1).map (fun rec => rec.processed_path)) :=
  process_single_image_filename_scheme defaultManagerConfig
    ⟨some ⟨800, 800, "RGB"⟩, 4242, true⟩
    ⟨"ring", "rings", "raw/rings/a/ring.jpg"⟩
    ⟨"ring", "rings", "raw/rings/b/ring.jpg"⟩
    "out" ⟨800, 800, "RGB"⟩ rfl (by decide) (by decide) (by decide)

/-- Claim C9: when the blob upload of an accepted image fails, the
failure stays inside upload_to_s3 as a log line, the full record is
still returned (identically to a successful upload), the normalized file
was written to the local output directory, and nothing is removed. -/
theorem upload_failure_keeps_record_and_local_file (cfg : ManagerConfig)
    (p : ImagePath) (out : String) (img : PILImage) (draw : Nat)
    (hacc : cfg.min_image_size ≤ minSize img) :
    (∃ rec, (process_single_image cfg ⟨some img, draw, false⟩ p out).1 = some rec) ∧
    (process_single_image cfg ⟨some img, draw, false⟩ p out).1
      = (process_single_image cfg ⟨some img, draw, true⟩ p out).1 ∧
    (∀ file cat fn, upload_to_s3 cfg false file cat fn
      = [Op.logError ("S3 upload error for " ++ file)]) ∧
    Op.saveJpeg (out ++ "/" ++ (p.stem ++ "_" ++ toString draw ++ ".jpg")) 95
      ∈ (process_single_image cfg ⟨some img, draw, false⟩ p out).2 ∧
    (∀ pth, Op.removeFile pth ∉ (process_single_image cfg ⟨some img, draw, false⟩ p out).2) := by
  have hnlt : ¬ minSize img < cfg.min_image_size := Nat.not_lt.mpr hacc
  refine ⟨?_, ?_, fun file cat fn => rfl, ?_, ?_⟩
  · rw [process_single_image_fst cfg ⟨some img, draw, false⟩ p out img rfl, if_neg hnlt]
    exact ⟨_, rfl⟩
  · rw [process_single_image_fst cfg ⟨some img, draw, false⟩ p out img rfl,
        process_single_image_fst cfg ⟨some img, draw, true⟩ p out img rfl]
  · simp only [process_single_image, if_neg hnlt]
    exact List.mem_cons_self _ _
  · intro pth hmem
    simp [process_single_image, if_neg hnlt, upload_to_s3] at hmem

/-- Concrete run of the C9 theorem: an 800 by 800 image whose upload
fails. -/
theorem upload_failure_keeps_record_and_local_file_witness :
    (∃ rec, (process_single_image defaultManagerConfig ⟨some ⟨800, 800, "RGB"⟩, 2024, false⟩
        ⟨"ring", "rings", "raw/rings/ring.jpg"⟩ "out").1 = some rec) ∧
    (process_single_image defaultManagerConfig ⟨some ⟨800, 800, "RGB"⟩, 2024, false⟩
        ⟨"ring", "rings", "raw/rings/ring.jpg"⟩ "out").1
      = (process_single_image defaultManagerConfig ⟨some ⟨800, 800, "RGB"⟩, 2024, true⟩
        ⟨"ring", "rings", "raw/rings/ring.jpg"⟩ "out").1 ∧
    (∀ file cat fn, upload_to_s3 defaultManagerConfig false file cat fn
      = [Op.logError ("S3 upload error for " ++ file)]) ∧
    Op.saveJpeg ("out" ++ "/" ++ ("ring" ++ "_" ++ toString 2024 ++ ".jpg")) 95
      ∈ (process_single_image defaultManagerConfig ⟨some ⟨800, 800, "RGB"⟩, 2024, false⟩
        ⟨"ring", "rings", "raw/rings/ring.jpg"⟩ "out").2 ∧
    (∀ pth, Op.removeFile pth ∉ (process_single_image defaultManagerConfig
        ⟨some ⟨800, 800, "RGB"⟩, 2024, false⟩ ⟨"ring", "rings", "raw/rings/ring.jpg"⟩ "out").2) :=
  upload_failure_keeps_record_and_local_file defaultManagerConfig
    ⟨"ring", "rings", "raw/rings/ring.jpg"⟩ "out" ⟨800, 800, "RGB"⟩ 2024 (by decide)

end Manager

end Jewelry

namespace Jewelry

namespace Manager

/-- The save_metadata op of a listed category appears in the loop. -/
theorem save_metadata_mem_loop (cfg : ManagerConfig) (dirs : List CategoryDir)
    (d : CategoryDir) (h : d ∈ dirs) :
    save_metadata cfg d.name (category_metadata cfg d)
      ∈ process_local_folders_loop cfg dirs := by
  induction dirs with
  | nil => cases h
  | cons x rest ih =>
      rcases List.mem_cons.mp h with rfl | h2
      · apply List.mem_append_left
        simp [process_category]
      · exact List.mem_append_right _ (ih h2)

/-- Claim C5: every category directory the local pipeline iterates gets
a metadata artifact named after the category, and a category with zero
accepted records gets the empty JSON array as content, not a missing
file. -/
theorem every_category_gets_metadata_artifact (cfg : ManagerConfig)
    (dirs : List CategoryDir) (d : CategoryDir) (h : d ∈ dirs) :
    Op.writeFile (metadataFilePath cfg d.name)
        (dumpRecordsIndent2 (category_metadata cfg d))
      ∈ process_local_folders cfg dirs ∧
    (category_metadata cfg d = [] →
      dumpRecordsIndent2 (category_metadata cfg d) = "[]") := by
  constructor
  · have hmem := save_metadata_mem_loop cfg dirs d h
    unfold save_metadata at hmem
    exact List.mem_cons_of_mem _ hmem
  · intro h0; rw [h0]; rfl

/-- Concrete run of the C5 theorem: a category directory with no images
at all still yields the empty-array artifact. -/
theorem every_category_gets_metadata_artifact_witness :
    Op.writeFile (metadataFilePath defaultManagerConfig "rings")
        (dumpRecordsIndent2 (category_metadata defaultManagerConfig ⟨"rings", []⟩))
      ∈ process_local_folders defaultManagerConfig [⟨"rings", []⟩] ∧
    (category_metadata defaultManagerConfig ⟨"rings", []⟩ = [] →
      dumpRecordsIndent2 (category_metadata defaultManagerConfig ⟨"rings", []⟩) = "[]") :=
  every_category_gets_metadata_artifact defaultManagerConfig [⟨"rings", []⟩]
    ⟨"rings", []⟩ (List.mem_singleton.mpr rfl)

end Manager

end Jewelry

namespace Jewelry

namespace Scraper

/-- Claim C2 counterexample: a product page that returns 200, whose
three selectors all yield values, and whose image fetch succeeds (status
200) with an empty body produces no record, because the code tests the
truthiness of the bytes; and under the default scraper configuration,
whose defaults define no user-agent pool, even a fully successful task
produces no record. -/
theorem scrape_product_success_not_sufficient :
    ((⟨200, some "https://cdn.example/ring.png", some "Gold Ring",
        some "99 USD", some (200, [])⟩ : PageEnv).status = 200 ∧
     (⟨200, some "https://cdn.example/ring.png", some "Gold Ring",
        some "99 USD", some (200, [])⟩ : PageEnv).imageSrc.isSome ∧
     (⟨200, some "https://cdn.example/ring.png", some "Gold Ring",
        some "99 USD", some (200, [])⟩ : PageEnv).titleText.isSome ∧
     (⟨200, some "https://cdn.example/ring.png", some "Gold Ring",
        some "99 USD", some (200, [])⟩ : PageEnv).priceText.isSome ∧
     (download_image ⟨200, some "https://cdn.example/ring.png", some "Gold Ring",
        some "99 USD", some (200, [])⟩).isSome ∧
     scrape_product { defaultScraperConfig with user_agents := ["Mozilla/5.0"] }
        "https://shop.example/p/ring1"
        { image := "div.product-image img", title := "h1.product-title", price := "span.price" }
        ⟨200, some "https://cdn.example/ring.png", some "Gold Ring",
          some "99 USD", some (200, [])⟩ = none) ∧
    scrape_product defaultScraperConfig "https://shop.example/p/ring1"
        { image := "div.product-image img", title := "h1.product-title", price := "span.price" }
        ⟨200, some "https://cdn.example/ring.png", some "Gold Ring",
          some "99 USD", some (200, [1, 2, 3])⟩ = none := by
  exact ⟨⟨rfl, rfl, rfl, rfl, rfl, rfl⟩, rfl⟩

/-- Claim C2 (amended): with a non-empty user-agent pool, scrape_product
returns a record iff the page fetch returns 200, the three selector
extractions all yield values, and the image fetch succeeds with a
non-empty body; and the aggregated result set of a site batch holds
exactly N - k records where k counts the failed tasks. -/
theorem scrape_product_record_iff (cfg : ScraperConfig) (url : String)
    (sel : Selectors) (env : PageEnv) (hua : cfg.user_agents ≠ [])
    (site : ScrapeTarget) (urls : List String) (pages : String → PageEnv) :
    ((scrape_product cfg url sel env).isSome ↔
      (env.status = 200 ∧ env.imageSrc.isSome ∧ env.titleText.isSome ∧
       env.priceText.isSome ∧
       ∃ body, download_image env = some body ∧ body ≠ [])) ∧
    (site_valid_results cfg site urls pages).length
      = urls.length
        - (site_task_results cfg site urls pages).countP (fun o => o.isNone) := by
  constructor
  · have huaB : cfg.user_agents.isEmpty = false := by
      cases hA : cfg.user_agents with
      | nil => exact absurd hA hua
      | cons a l => rfl
    unfold scrape_product
    rw [huaB]
    simp only [Bool.false_eq_true, if_false]
    by_cases hst : env.status = 200
    · rw [if_pos hst]
      cases hi : env.imageSrc with
      | none => simp [hi]
      | some isrc =>
        cases ht : env.titleText with
        | none => simp [hi, ht]
        | some t =>
          cases hp : env.priceText with
          | none => simp [hi, ht, hp]
          | some pr =>
            cases hd : download_image env with
            | none => simp [hst, hi, ht, hp, hd]
            | some body =>
              cases body with
              | nil => simp [hst, hi, ht, hp, hd]
              | cons b bs => simp [hst, hi, ht, hp, hd]
    · rw [if_neg hst]
      simp [hst]
  · unfold site_valid_results
    rw [length_filterMap_id]
    unfold site_task_results
    rw [List.length_map]

/-- Concrete run of the C2 amended theorem: one configured site with two
urls, one succeeding and one failing with a 404, gives one record. -/
theorem scrape_product_record_iff_witness :
    ((scrape_product { defaultScraperConfig with user_agents := ["Mozilla/5.0"] }
        "https://shop.example/p/ring1"
        { image := "i", title := "t", price := "p" }
        ⟨200, some "src", some "T", some "P", some (200, [7])⟩).isSome ↔
      ((⟨200, some "src", some "T", some "P", some (200, [7])⟩ : PageEnv).status = 200 ∧
       (⟨200, some "src", some "T", some "P", some (200, [7])⟩ : PageEnv).imageSrc.isSome ∧
       (⟨200, some "src", some "T", some "P", some (200, [7])⟩ : PageEnv).titleText.isSome ∧
       (⟨200, some "src", some "T", some "P", some (200, [7])⟩ : PageEnv).priceText.isSome ∧
       ∃ body, download_image ⟨200, some "src", some "T", some "P", some (200, [7])⟩
          = some body ∧ body ≠ [])) ∧
    (site_valid_results { defaultScraperConfig with user_agents := ["Mozilla/5.0"] }
        { url := "https://shop.example", selectors := { image := "i", title := "t", price := "p" } }
        ["https://shop.example/p/ring1", "https://shop.example/p/ring2"]
        (fun u => if u = "https://shop.example/p/ring1"
          then ⟨200, some "src", some "T", some "P", some (200, [7])⟩
          else ⟨404, none, none, none, none⟩)).length
      = ["https://shop.example/p/ring1", "https://shop.example/p/ring2"].length
        - (site_task_results { defaultScraperConfig with user_agents := ["Mozilla/5.0"] }
            { url := "https://shop.example", selectors := { image := "i", title := "t", price := "p" } }
            ["https://shop.example/p/ring1", "https://shop.example/p/ring2"]
            (fun u => if u = "https://shop.example/p/ring1"
              then ⟨200, some "src", some "T", some "P", some (200, [7])⟩
              else ⟨404, none, none, none, none⟩)).countP (fun o => o.isNone) :=
  scrape_product_record_iff { defaultScraperConfig with user_agents := ["Mozilla/5.0"] }
    "https://shop.example/p/ring1" { image := "i", title := "t", price := "p" }
    ⟨200, some "src", some "T", some "P", some (200, [7])⟩ (by decide)
    { url := "https://shop.example", selectors := { image := "i", title := "t", price := "p" } }
    ["https://shop.example/p/ring1", "https://shop.example/p/ring2"]
    (fun u => if u = "https://shop.example/p/ring1"
      then ⟨200, some "src", some "T", some "P", some (200, [7])⟩
      else ⟨404, none, none, none, none⟩)

end Scraper

end Jewelry

namespace Jewelry

namespace Scraper

/-- Claim C4 counterexample: two distinct site urls produce the very
same artifact operations, because save_scrape_results derives neither
filename from the site identifier; both JSON artifacts are the fixed
scraped_data/scrape_results.json. -/
theorem save_scrape_results_ignores_site_identifier :
    save_scrape_results defaultScraperConfig "https://site-a.example" []
      = save_scrape_results defaultScraperConfig "https://site-b.example" [] ∧
    ("https://site-a.example" : String) ≠ "https://site-b.example" ∧
    SOp.writeFile "scraped_data/scrape_results.json" "[]"
      ∈ save_scrape_results defaultScraperConfig "https://site-a.example" [] := by
  exact ⟨rfl, by decide, by decide⟩

end Scraper

namespace Manager

/-- Claim C4 (amended): the per-category JSON artifact name is derived
from the category identifier, so distinct categories get distinct
artifacts; the scraper instead writes the fixed pair
scrape_results.json and scrape_results.csv, identical for every site
url. -/
theorem metadata_artifact_names_per_group (cfg : ManagerConfig)
    (cfgS : Scraper.ScraperConfig) (c1 c2 : String) (h : c1 ≠ c2)
    (u1 u2 : String) (rs : List Scraper.ProductRecord) :
    metadataFilePath cfg c1 ≠ metadataFilePath cfg c2 ∧
    Scraper.save_scrape_results cfgS u1 rs = Scraper.save_scrape_results cfgS u2 rs := by
  refine ⟨?_, rfl⟩
  intro he
  apply h
  have hd := congrArg String.data he
  simp only [metadataFilePath, String.data_append, List.append_assoc] at hd
  have h1 := List.append_cancel_left hd
  have h2 := List.append_cancel_left h1
  have h3 := List.append_cancel_right h2
  exact String.ext h3

/-- Concrete run of the C4 amended theorem: categories rings and
necklaces, sites a and b. -/
theorem metadata_artifact_names_per_group_witness :
    metadataFilePath defaultManagerConfig "rings"
      ≠ metadataFilePath defaultManagerConfig "necklaces" ∧
    Scraper.save_scrape_results Scraper.defaultScraperConfig "https://site-a.example" []
      = Scraper.save_scrape_results Scraper.defaultScraperConfig "https://site-b.example" [] :=
  metadata_artifact_names_per_group defaultManagerConfig Scraper.defaultScraperConfig
    "rings" "necklaces" (by decide) "https://site-a.example" "https://site-b.example" []

end Manager

end Jewelry

namespace Jewelry

namespace Scraper

/-- The sequential site loop distributes over list append. -/
theorem start_scraping_append (cfg : ScraperConfig)
    (l1 l2 : List (ScrapeTarget × SiteEnv)) :
    start_scraping cfg (l1 ++ l2) = start_scraping cfg l1 ++ start_scraping cfg l2 := by
  induction l1 with
  | nil => rfl
  | cons x rest ih =>
      cases x with
      | mk site env => simp [start_scraping, ih]

/-- Claim C6: a discovery exception is caught inside scrape_site, which
then only logs (no artifact op of any kind), and the multi-site loop
still runs every site configured after the failing one. -/
theorem discovery_failure_only_aborts_own_site (cfg : ScraperConfig)
    (site : ScrapeTarget) (env : SiteEnv) (msg : String)
    (l1 l2 : List (ScrapeTarget × SiteEnv))
    (h : env.discovery = Except.error msg) :
    scrape_site cfg site env
      = [SOp.logError ("Error scraping site " ++ site.url ++ ": " ++ msg)] ∧
    (∀ pth content, SOp.writeFile pth content ∉ scrape_site cfg site env) ∧
    (∀ pth rows, SOp.writeCsv pth rows ∉ scrape_site cfg site env) ∧
    start_scraping cfg (l1 ++ (site, env) :: l2)
      = start_scraping cfg l1 ++ (scrape_site cfg site env ++ start_scraping cfg l2) := by
  have hs : scrape_site cfg site env
      = [SOp.logError ("Error scraping site " ++ site.url ++ ": " ++ msg)] := by
    unfold scrape_site
    rw [h]
  refine ⟨hs, ?_, ?_, ?_⟩
  · intro pth content hmem
    rw [hs] at hmem
    simp at hmem
  · intro pth rows hmem
    rw [hs] at hmem
    simp at hmem
  · rw [start_scraping_append]
    rfl

/-- Concrete run of the C6 theorem: the first configured site fails at
discovery, the second still produces its artifacts. -/
theorem discovery_failure_only_aborts_own_site_witness :
    scrape_site defaultScraperConfig
        { url := "https://a.example", selectors := { image := "i", title := "t", price := "p" } }
        { discovery := Except.error "boom", pages := fun _ => ⟨404, none, none, none, none⟩ }
      = [SOp.logError ("Error scraping site " ++ "https://a.example" ++ ": " ++ "boom")] ∧
    (∀ pth content, SOp.writeFile pth content ∉ scrape_site defaultScraperConfig
        { url := "https://a.example", selectors := { image := "i", title := "t", price := "p" } }
        { discovery := Except.error "boom", pages := fun _ => ⟨404, none, none, none, none⟩ }) ∧
    (∀ pth rows, SOp.writeCsv pth rows ∉ scrape_site defaultScraperConfig
        { url := "https://a.example", selectors := { image := "i", title := "t", price := "p" } }
        { discovery := Except.error "boom", pages := fun _ => ⟨404, none, none, none, none⟩ }) ∧
    start_scraping defaultScraperConfig
        ([] ++ ({ url := "https://a.example", selectors := { image := "i", title := "t", price := "p" } },
            { discovery := Except.error "boom", pages := fun _ => ⟨404, none, none, none, none⟩ })
          :: [({ url := "https://b.example", selectors := { image := "i", title := "t", price := "p" } },
            { discovery := Except.ok [], pages := fun _ => ⟨404, none, none, none, none⟩ })])
      = start_scraping defaultScraperConfig []
        ++ (scrape_site defaultScraperConfig
            { url := "https://a.example", selectors := { image := "i", title := "t", price := "p" } }
            { discovery := Except.error "boom", pages := fun _ => ⟨404, none, none, none, none⟩ }
          ++ start_scraping defaultScraperConfig
            [({ url := "https://b.example", selectors := { image := "i", title := "t", price := "p" } },
              { discovery := Except.ok [], pages := fun _ => ⟨404, none, none, none, none⟩ })]) :=
  discovery_failure_only_aborts_own_site defaultScraperConfig
    { url := "https://a.example", selectors := { image := "i", title := "t", price := "p" } }
    { discovery := Except.error "boom", pages := fun _ => ⟨404, none, none, none, none⟩ }
    "boom" []
    [({ url := "https://b.example", selectors := { image := "i", title := "t", price := "p" } },
      { discovery := Except.ok [], pages := fun _ => ⟨404, none, none, none, none⟩ })]
    rfl

end Scraper

end Jewelry

namespace Jewelry

namespace Scraper

/-- No admitted task in a fresh batch of waiting tasks. -/
theorem countP_replicate_waiting (n : Nat) :
    (List.replicate n TaskPhase.waiting).countP isInflight = 0 := by
  induction n with
  | zero => rfl
  | succ k ih => simp [List.replicate_succ, List.countP_cons, ih, isInflight]

/-- Every scheduler step keeps counter plus admitted tasks constant. -/
theorem semStep_preserves_sum (s t : SemState) (h : SemStep s t) :
    t.value + inflightCount t = s.value + inflightCount s := by
  cases h with
  | acquire v l r =>
      simp [inflightCount, List.countP_append, List.countP_cons, isInflight]
      omega
  | progress v n l r =>
      simp [inflightCount, List.countP_append, List.countP_cons, isInflight]
  | release v n l r =>
      simp [inflightCount, List.countP_append, List.countP_cons, isInflight]
      omega

/-- The sum invariant holds of every reachable state. -/
theorem reachable_sum_invariant (init s : SemState) (h : ReachableFrom init s) :
    s.value + inflightCount s = init.value + inflightCount init := by
  induction h with
  | refl => rfl
  | tail _ step ih => rw [semStep_preserves_sum _ _ step, ih]

/-- Claim C7: in every reachable interleaving of one scrape_site run,
the tasks simultaneously past the semaphore never exceed the configured
concurrent_requests cap (default 5); the semaphore is built afresh
inside each scrape_site call, so the bound is per site run. -/
theorem scrape_site_inflight_bounded (cfg : ScraperConfig) (urls : List String)
    (s : SemState) (h : ReachableFrom (scrapeSiteInit cfg urls) s) :
    inflightCount s ≤ cfg.concurrent_requests ∧
    defaultScraperConfig.concurrent_requests = 5 := by
  have hinv := reachable_sum_invariant _ _ h
  have h0 : inflightCount (scrapeSiteInit cfg urls) = 0 :=
    countP_replicate_waiting urls.length
  have hv : (scrapeSiteInit cfg urls).value = cfg.concurrent_requests := rfl
  constructor
  · omega
  · rfl

/-- Concrete run of the C7 theorem: one acquire step from the initial
state of a two-url site under the default cap. -/
theorem scrape_site_inflight_bounded_witness :
    inflightCount ⟨4, [TaskPhase.inflight 0, TaskPhase.waiting]⟩
      ≤ defaultScraperConfig.concurrent_requests ∧
    defaultScraperConfig.concurrent_requests = 5 :=
  scrape_site_inflight_bounded defaultScraperConfig
    ["https://a.example/p/1", "https://a.example/p/2"]
    ⟨4, [TaskPhase.inflight 0, TaskPhase.waiting]⟩
    (Relation.ReflTransGen.single (SemStep.acquire 4 [] [TaskPhase.waiting]))

end Scraper

end Jewelry

namespace Jewelry

namespace Webhook

/-- Claim C3: the handler acknowledges with 200 iff the signature header
is present (and non-empty) and equals the hex HMAC digest of the
canonical sorted-key compact JSON serialization of the payload; a
missing header, or any signature differing from the digest, is rejected
with 400; no other status is produced. The digest function stands for
hmac.new(secret, msg, sha256).hexdigest(), whose output is never the
empty string. -/
theorem handle_webhook_accepts_iff_signature (hmacHex : String → String)
    (sig : Option String) (data : Json)
    (hne : hmacHex (canonicalPayload data) ≠ "") :
    (handle_webhook hmacHex sig data = 200 ↔
      sig = some (hmacHex (canonicalPayload data))) ∧
    (sig = none → handle_webhook hmacHex sig data = 400) ∧
    (∀ s, s ≠ hmacHex (canonicalPayload data) →
      handle_webhook hmacHex (some s) data = 400) ∧
    (handle_webhook hmacHex sig data = 200 ∨ handle_webhook hmacHex sig data = 400) := by
  cases sig with
  | none =>
      refine ⟨?_, fun _ => rfl, ?_, Or.inr rfl⟩
      · constructor
        · intro h; cases h
        · intro h; cases h
      · intro s hs
        unfold handle_webhook headerTruthy verify_signature
        simp only [Option.getD_some]
        by_cases hempty : s = ""
        · subst hempty; rfl
        · have : (hmacHex (canonicalPayload data) == s) = false :=
            beq_false_of_ne (fun hh => hs hh.symm)
          simp [hempty, this]
  | some s =>
      have hreject : ∀ t : String, t ≠ hmacHex (canonicalPayload data) →
          handle_webhook hmacHex (some t) data = 400 := by
        intro t ht
        unfold handle_webhook headerTruthy verify_signature
        simp only [Option.getD_some]
        by_cases hempty : t = ""
        · subst hempty; rfl
        · have : (hmacHex (canonicalPayload data) == t) = false :=
            beq_false_of_ne (fun hh => ht hh.symm)
          simp [hempty, this]
      refine ⟨?_, ?_, hreject, ?_⟩
      · constructor
        · intro h200
          by_cases heq : s = hmacHex (canonicalPayload data)
          · rw [heq]
          · rw [hreject s heq] at h200; cases h200
        · intro hsome
          have heq : s = hmacHex (canonicalPayload data) := by
            injection hsome
          subst heq
          unfold handle_webhook headerTruthy verify_signature
          simp only [Option.getD_some]
          have hs0 : (hmacHex (canonicalPayload data) == "") = false :=
            beq_false_of_ne hne
          simp [hs0]
      · intro h; cases h
      · by_cases heq : s = hmacHex (canonicalPayload data)
        · left
          subst heq
          unfold handle_webhook headerTruthy verify_signature
          simp only [Option.getD_some]
          have hs0 : (hmacHex (canonicalPayload data) == "") = false :=
            beq_false_of_ne hne
          simp [hs0]
        · right; exact hreject s heq

end Webhook

end Jewelry

namespace Jewelry

namespace Webhook

/-- Concrete run of the C3 theorem at the upload payload, a digest
function returning a3f0 for every message, the correct header, showing
acceptance, the missing-header rejection, and the rejection of every
differing signature. -/
theorem handle_webhook_accepts_iff_signature_witness :
    (handle_webhook (fun _ => "a3f0")
        (some ((fun _ : String => "a3f0") (canonicalPayload
          (Json.obj [("event", Json.str "upload"), ("public_id", Json.str "abc")]))))
        (Json.obj [("event", Json.str "upload"), ("public_id", Json.str "abc")]) = 200 ↔
      some ((fun _ : String => "a3f0") (canonicalPayload
          (Json.obj [("event", Json.str "upload"), ("public_id", Json.str "abc")])))
        = some ((fun _ : String => "a3f0") (canonicalPayload
          (Json.obj [("event", Json.str "upload"), ("public_id", Json.str "abc")])))) ∧
    (some ((fun _ : String => "a3f0") (canonicalPayload
        (Json.obj [("event", Json.str "upload"), ("public_id", Json.str "abc")])))
      = none →
      handle_webhook (fun _ => "a3f0")
        (some ((fun _ : String => "a3f0") (canonicalPayload
          (Json.obj [("event", Json.str "upload"), ("public_id", Json.str "abc")]))))
        (Json.obj [("event", Json.str "upload"), ("public_id", Json.str "abc")]) = 400) ∧
    (∀ s, s ≠ (fun _ : String => "a3f0") (canonicalPayload
        (Json.obj [("event", Json.str "upload"), ("public_id", Json.str "abc")])) →
      handle_webhook (fun _ => "a3f0") (some s)
        (Json.obj [("event", Json.str "upload"), ("public_id", Json.str "abc")]) = 400) ∧
    (handle_webhook (fun _ => "a3f0")
        (some ((fun _ : String => "a3f0") (canonicalPayload
          (Json.obj [("event", Json.str "upload"), ("public_id", Json.str "abc")]))))
        (Json.obj [("event", Json.str "upload"), ("public_id", Json.str "abc")]) = 200 ∨
      handle_webhook (fun _ => "a3f0")
        (some ((fun _ : String => "a3f0") (canonicalPayload
          (Json.obj [("event", Json.str "upload"), ("public_id", Json.str "abc")]))))
        (Json.obj [("event", Json.str "upload"), ("public_id", Json.str "abc")]) = 400) :=
  handle_webhook_accepts_iff_signature (fun _ => "a3f0")
    (some ((fun _ : String => "a3f0") (canonicalPayload
      (Json.obj [("event", Json.str "upload"), ("public_id", Json.str "abc")]))))
    (Json.obj [("event", Json.str "upload"), ("public_id", Json.str "abc")])
    (by decide)

end Webhook

namespace Processor

/-- Claim C10: the bucket and key lookups run before the exception
guard, so an event carrying the Records[0].s3 structure never escapes
as an exception (200 on downstream success, 500 with the error string
on downstream failure), while an event lacking the structure makes the
handler raise the lookup error to its caller. -/
theorem handler_guards_only_downstream (env : ProcessorEnv) (event : Json) :
    ((extractBucketKey event).isSome = true →
      (∃ r, handler env event = Except.ok r ∧
        (r.statusCode = 200 ∨ r.statusCode = 500)) ∧
      (∀ res, runPipeline env = Except.ok res →
        handler env event = Except.ok ⟨200, successBody res.secure_url⟩) ∧
      (∀ e, runPipeline env = Except.error e →
        handler env event = Except.ok ⟨500, errorBody e⟩)) ∧
    (extractBucketKey event = none → ∃ e, handler env event = Except.error e) := by
  constructor
  · intro hsome
    cases hex : extractBucketKey event with
    | none => rw [hex] at hsome; cases hsome
    | some bk =>
        refine ⟨?_, ?_, ?_⟩
        · cases hrun : runPipeline env with
          | ok res =>
              refine ⟨⟨200, successBody res.secure_url⟩, ?_, Or.inl rfl⟩
              unfold handler
              rw [hex, hrun]
          | error e =>
              refine ⟨⟨500, errorBody e⟩, ?_, Or.inr rfl⟩
              unfold handler
              rw [hex, hrun]
        · intro res hrun
          unfold handler
          rw [hex, hrun]
        · intro e hrun
          unfold handler
          rw [hex, hrun]
  · intro hnone
    refine ⟨"lookup failed on Records[0].s3 structure", ?_⟩
    unfold handler
    rw [hnone]

/-- Concrete run of the C10 theorem, applied once to a well-formed S3
event (all downstream calls succeeding) and once to an event whose
Records list is empty. -/
theorem handler_guards_only_downstream_witness :
    (∃ r, handler
        ⟨Except.ok (), Except.ok ⟨"https://res.example/img.jpg", "jpg", 1024, 800, 600⟩, Except.ok ()⟩
        (Json.obj [("Records", Json.arr [Json.obj [("s3", Json.obj
          [("bucket", Json.obj [("name", Json.str "jewelry-images-input-bucket")]),
           ("object", Json.obj [("key", Json.str "rings/ring_1234.jpg")])])]])])
      = Except.ok r ∧ (r.statusCode = 200 ∨ r.statusCode = 500)) ∧
    (∃ e, handler
        ⟨Except.ok (), Except.ok ⟨"https://res.example/img.jpg", "jpg", 1024, 800, 600⟩, Except.ok ()⟩
        (Json.obj [("Records", Json.arr [])])
      = Except.error e) :=
  ⟨((handler_guards_only_downstream
      ⟨Except.ok (), Except.ok ⟨"https://res.example/img.jpg", "jpg", 1024, 800, 600⟩, Except.ok ()⟩
      (Json.obj [("Records", Json.arr [Json.obj [("s3", Json.obj
        [("bucket", Json.obj [("name", Json.str "jewelry-images-input-bucket")]),
         ("object", Json.obj [("key", Json.str "rings/ring_1234.jpg")])])]])])).1
      (by rfl)).1,
   (handler_guards_only_downstream
      ⟨Except.ok (), Except.ok ⟨"https://res.example/img.jpg", "jpg", 1024, 800, 600⟩, Except.ok ()⟩
      (Json.obj [("Records", Json.arr [])])).2 (by rfl)⟩

end Processor

end Jewelry
